/-
  Verification of the POC-Algorand real-estate escrow against its spec.

  The repository ships three TEAL approval-program variants for the escrow:

  * the deployed v8 contract in
    `POCTemplate/projects/POCTemplate/src/contracts/RealEstateEscrow.ts`
    (status codes: 0 = active, 1 = completed, 2 = cancelled);
  * the `deploy-testnet.js` v8 variant (here: namespace `Testnet`;
    status codes: 0 = active, 1 = pending, 2 = completed, with the
    script's own state decoder naming 3 = cancelled);
  * the v6 variant in the second `RealEstateEscrow.ts` (here:
    namespace `V6`), whose `make_offer` writes `buyer` and rejects.

  Embedding conventions, matching TEAL semantics:

  * Global-state keys are `Option Nat` fields; an unset key is `none`.
    `app_global_get` on an unset uint key yields 0 (`getUint` below).
    `app_global_get` on an unset bytes key yields the empty byte string;
    an empty byte string never equals a 32-byte account address, so a
    TEAL comparison between a sender/receiver address and a stored
    bytes key is modelled as `stored = some addr` (false when unset).
  * Addresses, amounts, timestamps and byte values are `Nat`;
    `TypeEnum` pay is the TEAL constant 1.
  * Each method branch is a chain of `assert`s followed by
    `app_global_put`s and `int 1; return`.  A branch is modelled as a
    function into `RawRes`: `.ok s'` when the program approves with
    final state `s'`, and `.fail t` when it rejects (a failed `assert`
    or `int 0; return`), where `t` is the global state at the failure
    point — before the ledger discards the rejected call's writes.
    The committed state of a call is `commitRes`: the ledger applies
    `.ok` states and rolls `.fail` states back to the pre-call state.
  * The three mutating methods take no application arguments beyond
    the method selector; `create_listing`'s price and hash arguments
    are passed as already-decoded naturals (the clients always supply
    well-formed `btoi`-encodable arguments).
-/
import Mathlib

/-- TEAL `int pay` transaction-type constant. -/
def payType : Nat := 1

/-- Client-side minimum-balance buffer: `price - 1000` in
`confirmTransfer`/`cancelDeal` of `RealEstateEscrow.ts` ("Minus min
balance for app account"). -/
def minBalanceReserve : Nat := 1000

/-- The escrow's global key/value state.  Keys as in the deployed
contract: seller, buyer, price, prop_hash, created, deadline, status.
`none` models a key that was never written. -/
structure GState where
  seller : Option Nat := none
  buyer : Option Nat := none
  price : Option Nat := none
  prop_hash : Option Nat := none
  created : Option Nat := none
  deadline : Option Nat := none
  status : Option Nat := none
deriving DecidableEq

/-- `app_global_get` on a uint key: unset keys read as 0. -/
def getUint (o : Option Nat) : Nat := o.getD 0

/-- The fields of the group transaction at index 0 that the approval
programs inspect (`gtxn 0 TypeEnum/Sender/Receiver/Amount`). -/
structure GTxn0 where
  typeEnum : Nat
  sender : Nat
  receiver : Nat
  amount : Nat
deriving DecidableEq

/-- The transaction-level and global inputs a method branch reads:
`txn Sender`, `global GroupSize`, `gtxn 0`, `global LatestTimestamp`,
`global CurrentApplicationAddress` (the escrow custodian). -/
structure CallCtx where
  sender : Nat
  groupSize : Nat
  gtxn0 : GTxn0
  timestamp : Nat
  appAddr : Nat
deriving DecidableEq

/-- Result of running one method branch of an approval program:
`.ok s` approves with final global state `s`; `.fail t` rejects with
`t` the global state at the failure point (pre-rollback). -/
inductive RawRes where
  | ok (s : GState)
  | fail (t : GState)
deriving DecidableEq

/-- Whether the branch approved the transaction. -/
def RawRes.succeeds : RawRes → Bool
  | .ok _ => true
  | .fail _ => false

/-- Ledger commit: an approved call's state is applied; a rejected
call's writes are discarded and the pre-call state is kept. -/
def commitRes (s0 : GState) : RawRes → GState
  | .ok s => s
  | .fail _ => s0

/-- `create_app` path of the deployed contract (ApplicationID == 0):
sets status := 0 (active) and created := LatestTimestamp, nothing
else.  Seller, price, prop_hash and deadline stay unset until a
`create_listing` NoOp call. -/
def create_app (ts : Nat) : GState :=
  { status := some 0, created := some ts }

/-- `create_listing` branch of the deployed contract
(RealEstateEscrow.ts, approval program).  Asserts GroupSize == 1, then
writes seller := Sender, price, prop_hash, and
deadline := LatestTimestamp + 2592000 (30 days).  The branch is
reachable through `handle_noop` on the existing application and has no
status, one-shot or authorization guard. -/
def create_listing (s : GState) (c : CallCtx) (priceArg propHashArg : Nat) : RawRes :=
  if c.groupSize = 1 then
    .ok { s with
      seller := some c.sender
      price := some priceArg
      prop_hash := some propHashArg
      deadline := some (c.timestamp + 2592000) }
  else .fail s

/-- `make_offer` branch of the deployed contract.  Asserts
status == 0, LatestTimestamp < deadline, GroupSize == 2,
gtxn 0 TypeEnum == pay, gtxn 0 Receiver == CurrentApplicationAddress,
gtxn 0 Amount == price; then writes buyer := Sender.  It writes no
status and does not inspect gtxn 0's sender. -/
def make_offer (s : GState) (c : CallCtx) : RawRes :=
  if getUint s.status = 0 then
    if c.timestamp < getUint s.deadline then
      if c.groupSize = 2 then
        if c.gtxn0.typeEnum = payType then
          if c.gtxn0.receiver = c.appAddr then
            if c.gtxn0.amount = getUint s.price then
              .ok { s with buyer := some c.sender }
            else .fail s
          else .fail s
        else .fail s
      else .fail s
    else .fail s
  else .fail s

/-- `confirm_transfer` branch of the deployed contract.  Asserts
Sender == seller, status == 0, LatestTimestamp < deadline,
GroupSize == 2, gtxn 0 TypeEnum == pay,
gtxn 0 Sender == CurrentApplicationAddress, gtxn 0 Receiver == seller;
then writes status := 1 (completed).  It never reads the buyer key and
never inspects gtxn 0's amount. -/
def confirm_transfer (s : GState) (c : CallCtx) : RawRes :=
  if s.seller = some c.sender then
    if getUint s.status = 0 then
      if c.timestamp < getUint s.deadline then
        if c.groupSize = 2 then
          if c.gtxn0.typeEnum = payType then
            if c.gtxn0.sender = c.appAddr then
              if s.seller = some c.gtxn0.receiver then
                .ok { s with status := some 1 }
              else .fail s
            else .fail s
          else .fail s
        else .fail s
      else .fail s
    else .fail s
  else .fail s

/-- `cancel_deal` branch of the deployed contract.  Asserts
(LatestTimestamp > deadline ∨ Sender == buyer ∨ Sender == seller),
status == 0, GroupSize == 2, gtxn 0 TypeEnum == pay,
gtxn 0 Sender == CurrentApplicationAddress,
gtxn 0 Receiver == buyer; then writes status := 2 (cancelled).
The deadline comparison is strict (`>`), and the group/receiver
checks are unconditional — there is no bundle-of-size-1 path. -/
def cancel_deal (s : GState) (c : CallCtx) : RawRes :=
  if getUint s.deadline < c.timestamp ∨ s.buyer = some c.sender ∨ s.seller = some c.sender then
    if getUint s.status = 0 then
      if c.groupSize = 2 then
        if c.gtxn0.typeEnum = payType then
          if c.gtxn0.sender = c.appAddr then
            if s.buyer = some c.gtxn0.receiver then
              .ok { s with status := some 2 }
            else .fail s
          else .fail s
        else .fail s
      else .fail s
    else .fail s
  else .fail s

/-- A NoOp application call to the deployed contract, dispatched by
`handle_noop` on ApplicationArgs 0. -/
inductive Method where
  | mCreateListing (priceArg propHashArg : Nat)
  | mMakeOffer
  | mConfirmTransfer
  | mCancelDeal
deriving DecidableEq

/-- `handle_noop` dispatch of the deployed contract. -/
def dispatch (s : GState) (c : CallCtx) : Method → RawRes
  | .mCreateListing p h => create_listing s c p h
  | .mMakeOffer => make_offer s c
  | .mConfirmTransfer => confirm_transfer s c
  | .mCancelDeal => cancel_deal s c

/-- Committed state after a sequence of NoOp calls to the deployed
contract, the ledger rolling back every rejected call. -/
def runTrace (s : GState) : List (Method × CallCtx) → GState
  | [] => s
  | (m, c) :: rest => runTrace (commitRes s (dispatch s c m)) rest

namespace Testnet

/-- `create_app` path of the `deploy-testnet.js` variant: sets
status := 0 and created; when NumAppArgs >= 3 it also stores
seller := Sender, price := btoi(ApplicationArgs 0),
prop_hash := ApplicationArgs 1, deadline := LatestTimestamp + 2592000. -/
def create_app (c : CallCtx) (args : List Nat) : GState :=
  let base : GState := { status := some 0, created := some c.timestamp }
  if 3 ≤ args.length then
    { base with
      seller := some c.sender
      price := some (args.getD 0 0)
      prop_hash := some (args.getD 1 0)
      deadline := some (c.timestamp + 2592000) }
  else base

/-- `make_offer` of the testnet variant: asserts status == 0, then
writes buyer := Sender and status := 1 (pending).  No group or
payment checks. -/
def make_offer (s : GState) (sender : Nat) : RawRes :=
  if getUint s.status = 0 then
    .ok { s with buyer := some sender, status := some 1 }
  else .fail s

/-- `confirm_transfer` of the testnet variant: asserts
Sender == seller and status == 1 (pending), then writes status := 2
(completed). -/
def confirm_transfer (s : GState) (sender : Nat) : RawRes :=
  if s.seller = some sender then
    if getUint s.status = 1 then
      .ok { s with status := some 2 }
    else .fail s
  else .fail s

/-- `cancel_deal` of the testnet variant: asserts
(Sender == buyer ∨ Sender == seller ∨ LatestTimestamp > deadline) and
then — under the comment "Mark as cancelled" — writes status := 0,
which the script's own state decoder names Active (its decoder maps
0 Active, 1 Pending, 2 Completed, 3 Cancelled).  There is no status
guard, so the branch also runs on a Completed deal. -/
def cancel_deal (s : GState) (sender ts : Nat) : RawRes :=
  if s.buyer = some sender ∨ s.seller = some sender ∨ getUint s.deadline < ts then
    .ok { s with status := some 0 }
  else .fail s

end Testnet

namespace V6

/-- `make_offer` of the v6 variant: writes buyer := Sender and then
executes `int 0; return`, rejecting the call after the write.  The
failure result carries the already-mutated state. -/
def make_offer (s : GState) (sender : Nat) : RawRes :=
  .fail { s with buyer := some sender }

end V6

/-- TEAL `int appl` transaction-type constant (an application call in
a group, e.g. when the state-transition call itself sits at group
index 0). -/
def applType : Nat := 6

/-- Custodian address used in the concrete examples:
`global CurrentApplicationAddress` of the deployed application. -/
def custodian : Nat := 77

/-- The application call itself viewed as `gtxn 0` of a
single-transaction group (no accompanying payment). -/
def callOnlyTxn : GTxn0 :=
  { typeEnum := applType, sender := 10, receiver := 0, amount := 0 }

/-! ## Concrete example states and calls for the claims -/

/-- Call context for the seller's `create_listing` call in C10's
trace: seller 10, singleton group, time 100. -/
def c10Create : CallCtx :=
  { sender := 10, groupSize := 1, gtxn0 := callOnlyTxn, timestamp := 100, appAddr := custodian }

/-- State reached in the deployed contract by `create_app` at time 100
followed by the seller's `create_listing(price 1000, hash 7)`; no
`make_offer` ever ran. -/
def c10S : GState :=
  runTrace (create_app 100) [(Method.mCreateListing 1000 7, c10Create)]

/-- Seller 10's `confirm_transfer` call at time 200 with a
2-transaction group paying custodian → seller. -/
def c10Confirm : CallCtx :=
  { sender := 10, groupSize := 2
    gtxn0 := { typeEnum := payType, sender := custodian, receiver := 10, amount := 0 }
    timestamp := 200, appAddr := custodian }

/-- Claim C10: in the deployed escrow program there is a reachable
state with no buyer ever recorded (status still 0 = active, buyer key
unset) in which `confirm_transfer` by the seller with a 2-transaction
group paying custodian → seller succeeds and marks the deal
completed: escrowed-fund release is not conditioned on an offer
having been made. -/
theorem c10_confirm_without_offer :
    c10S = { seller := some 10, price := some 1000, prop_hash := some 7,
             created := some 100, deadline := some 2592100, status := some 0 } ∧
    c10S.buyer = none ∧
    confirm_transfer c10S c10Confirm = .ok { c10S with status := some 1 } := by
  decide

/-- Creation call of the testnet variant for C1: seller 10 creates the
application at time 100 with price 1000 and property hash 7. -/
def c1Create : CallCtx :=
  { sender := 10, groupSize := 1, gtxn0 := callOnlyTxn, timestamp := 100, appAddr := custodian }

/-- Testnet-variant state right after creation with initial params. -/
def c1S0 : GState := Testnet.create_app c1Create [1000, 7, 3]

/-- Testnet-variant state after buyer 20's offer (status 1 = pending). -/
def c1S1 : GState := { c1S0 with buyer := some 20, status := some 1 }

/-- Testnet-variant state after the seller confirms
(status 2 = completed). -/
def c1S2 : GState := { c1S1 with status := some 2 }

/-- Claim C1: Completed/Cancelled are terminal and no path returns to
Active.  The testnet variant violates this: on the reachable Completed
state `c1S2` (status 2), `cancel_deal` by the seller at time 200
succeeds — the branch has no status guard — and writes status 0,
which is Active in the variant's own state decoder (0 Active,
1 Pending, 2 Completed, 3 Cancelled), under the source comment
"Mark as cancelled". -/
theorem c1_cancel_on_completed_reactivates :
    Testnet.make_offer c1S0 20 = .ok c1S1 ∧
    Testnet.confirm_transfer c1S1 10 = .ok c1S2 ∧
    c1S2.status = some 2 ∧
    Testnet.cancel_deal c1S2 10 200 = .ok { c1S2 with status := some 0 } := by
  decide

/-- Deployed-contract state for C2 after `create_app` at time 100 and
the seller's `create_listing(1000, 7)`: active, price 1000, deadline
2592100, no buyer. -/
def c2S0 : GState :=
  { seller := some 10, price := some 1000, prop_hash := some 7,
    created := some 100, deadline := some 2592100, status := some 0 }

/-- Buyer 20's `make_offer` call: 2-transaction group whose payment of
1000 (the full price) from 20 goes to the custodian, at time 200. -/
def c2OfferB : CallCtx :=
  { sender := 20, groupSize := 2
    gtxn0 := { typeEnum := payType, sender := 20, receiver := custodian, amount := 1000 }
    timestamp := 200, appAddr := custodian }

/-- Caller 30's second `make_offer` with its own full-price payment at
time 300. -/
def c2OfferC : CallCtx :=
  { sender := 30, groupSize := 2
    gtxn0 := { typeEnum := payType, sender := 30, receiver := custodian, amount := 1000 }
    timestamp := 300, appAddr := custodian }

/-- Claim C2: a successful `make_offer` should set status = Pending
and make a second `make_offer` fail with DealNotActive.  In the
deployed contract the first offer records buyer 20 but leaves
status 0 (the contract's status encoding has no Pending value), so
caller 30's second offer also succeeds and overwrites the buyer key
while the status still reads 0. -/
theorem c2_second_offer_overwrites_buyer :
    make_offer c2S0 c2OfferB = .ok { c2S0 with buyer := some 20 } ∧
    (commitRes c2S0 (make_offer c2S0 c2OfferB)).status = some 0 ∧
    make_offer { c2S0 with buyer := some 20 } c2OfferC
      = .ok { c2S0 with buyer := some 30 } ∧
    (20 : Nat) ≠ 30 := by
  decide

/-- Deployed-contract state for C3: active (status 0), seller 10,
price 1000000, deadline 2592100, and no buyer recorded. -/
def c3S0 : GState :=
  { seller := some 10, price := some 1000000, prop_hash := some 7,
    created := some 100, deadline := some 2592100, status := some 0 }

/-- Seller 10's `confirm_transfer` call at time 500: 2-transaction
group paying custodian → seller. -/
def c3Confirm : CallCtx :=
  { sender := 10, groupSize := 2
    gtxn0 := { typeEnum := payType, sender := custodian, receiver := 10, amount := 999000 }
    timestamp := 500, appAddr := custodian }

/-- Claim C3: `confirm_transfer` should succeed only when
status == Pending and fail (DealNotPending) on every other state,
including Active with no buyer.  The deployed contract's guard is
status == 0 (its Active code) and it never reads the buyer key, so on
the Active no-buyer state `c3S0` the seller's confirm succeeds and
sets status 1 (completed). -/
theorem c3_confirm_succeeds_without_offer :
    c3S0.buyer = none ∧
    getUint c3S0.status = 0 ∧
    confirm_transfer c3S0 c3Confirm = .ok { c3S0 with status := some 1 } := by
  decide

/-- Deployed-contract state for C8: a live listing created with
seller 10, price 1000, deadline 2592100. -/
def c8S : GState :=
  { seller := some 10, price := some 1000, prop_hash := some 7,
    created := some 100, deadline := some 2592100, status := some 0 }

/-- A stranger (account 99) calls `create_listing` again on the
existing application, at time 5000, in a singleton group. -/
def c8Call : CallCtx :=
  { sender := 99, groupSize := 1, gtxn0 := callOnlyTxn, timestamp := 5000, appAddr := custodian }

/-- Claim C8: price and deadline should be immutable after creation.
In the deployed contract the `create_listing` branch is reachable via
`handle_noop` on the existing application with no authorization,
status or one-shot guard, so any caller can re-run it: account 99's
call rewrites seller to 99, price from 1000 to 5, prop_hash to 8, and
extends the deadline from 2592100 to 5000 + 2592000 = 2597000. -/
theorem c8_relisting_rewrites_price_and_deadline :
    create_listing c8S c8Call 5 8
      = .ok { c8S with seller := some 99, price := some 5,
                       prop_hash := some 8, deadline := some 2597000 } ∧
    (some 5 : Option Nat) ≠ c8S.price ∧
    (some 2597000 : Option Nat) ≠ c8S.deadline := by
  decide

/-- Deployed-contract state for C4: active, seller 10,
price 1000000. -/
def c4S : GState :=
  { seller := some 10, price := some 1000000, prop_hash := some 7,
    created := some 100, deadline := some 2592100, status := some 0 }

/-- Seller 10's `confirm_transfer` call whose custodian → seller
payment carries amount 5 instead of price − reserve = 999000. -/
def c4Confirm : CallCtx :=
  { sender := 10, groupSize := 2
    gtxn0 := { typeEnum := payType, sender := custodian, receiver := 10, amount := 5 }
    timestamp := 500, appAddr := custodian }

/-- Claim C4 counterexample: the claim says a `confirm_transfer`
bundle whose amount differs from price − reserve fails with
BundleMismatch; in the deployed contract a payout of amount 5 against
price 1000000 (so 5 ≠ 999000) passes every check and the call
succeeds — the program never reads `gtxn 0 Amount` in this branch. -/
theorem c4_wrong_amount_accepted :
    c4Confirm.gtxn0.amount ≠ getUint c4S.price - minBalanceReserve ∧
    confirm_transfer c4S c4Confirm = .ok { c4S with status := some 1 } := by
  decide

/-- Claim C4 (amended): `confirm_transfer` succeeds exactly when the
caller is the stored seller, status reads 0, the time is strictly
before the deadline, and the bundle has size 2 with a pay transaction
whose sender is the custodian and whose receiver is the stored
seller.  The payment amount does not occur in the right-hand side:
the price − reserve amount exists only in the client code. -/
theorem c4_confirm_success_characterization (s : GState) (c : CallCtx) :
    (confirm_transfer s c).succeeds = true ↔
      (s.seller = some c.sender ∧ getUint s.status = 0 ∧
       c.timestamp < getUint s.deadline ∧ c.groupSize = 2 ∧
       c.gtxn0.typeEnum = payType ∧ c.gtxn0.sender = c.appAddr ∧
       s.seller = some c.gtxn0.receiver) := by
  unfold confirm_transfer
  repeat' split
  all_goals simp_all [RawRes.succeeds]

/-- Deployed-contract state for C5: active, seller 10, price 1000. -/
def c5S : GState :=
  { seller := some 10, price := some 1000, prop_hash := some 7,
    created := some 100, deadline := some 2592100, status := some 0 }

/-- Caller 20's `make_offer` whose full-price payment to the custodian
is funded by account 99, not by the caller. -/
def c5Offer : CallCtx :=
  { sender := 20, groupSize := 2
    gtxn0 := { typeEnum := payType, sender := 99, receiver := custodian, amount := 1000 }
    timestamp := 200, appAddr := custodian }

/-- Claim C5 counterexample: the claim says a `make_offer` bundle
whose payment is funded by someone other than the caller fails with
BundleMismatch; in the deployed contract account 99's payment with
caller 20 passes every check (the program never reads
`gtxn 0 Sender` in this branch) and the call succeeds, recording
buyer 20. -/
theorem c5_foreign_funded_offer_accepted :
    c5Offer.gtxn0.sender ≠ c5Offer.sender ∧
    make_offer c5S c5Offer = .ok { c5S with buyer := some 20 } := by
  decide

/-- Claim C5 (amended): `make_offer` succeeds exactly when status
reads 0, the time is strictly before the deadline, and the bundle has
size 2 with a pay transaction to the custodian whose amount equals the
stored price.  An amount of 999 against price 1000 therefore fails,
but the payment's sender does not occur in the right-hand side: the
program does not require the payment to be funded by the caller. -/
theorem c5_offer_success_characterization (s : GState) (c : CallCtx) :
    (make_offer s c).succeeds = true ↔
      (getUint s.status = 0 ∧ c.timestamp < getUint s.deadline ∧
       c.groupSize = 2 ∧ c.gtxn0.typeEnum = payType ∧
       c.gtxn0.receiver = c.appAddr ∧ c.gtxn0.amount = getUint s.price) := by
  unfold make_offer
  repeat' split
  all_goals simp_all [RawRes.succeeds]

/-- Deployed-contract state for C6: active listing with no buyer
recorded. -/
def c6S : GState :=
  { seller := some 10, price := some 1000, prop_hash := some 7,
    created := some 100, deadline := some 2592100, status := some 0 }

/-- The seller's `cancel_deal` call as a bundle of size 1: the
state-transition call alone, no refund transfer. -/
def c6Cancel : CallCtx :=
  { sender := 10, groupSize := 1, gtxn0 := callOnlyTxn, timestamp := 200, appAddr := custodian }

/-- Claim C6 counterexample: the claim says `cancel_deal` on an
Active deal with no buyer succeeds with a bundle of size 1; in the
deployed contract the seller's size-1 cancel on the buyerless active
state `c6S` is rejected (the branch unconditionally asserts
GroupSize == 2). -/
theorem c6_call_only_cancel_rejected :
    c6S.buyer = none ∧ c6S.status = some 0 ∧ c6Cancel.groupSize = 1 ∧
    (cancel_deal c6S c6Cancel).succeeds = false := by
  decide

/-- Claim C6 (amended): the deployed `cancel_deal` always requires a
size-2 bundle with a pay transaction from the custodian to the stored
buyer; with no buyer recorded the receiver comparison reads an unset
key and can never hold, so a deal without a buyer cannot be cancelled
by any call whatsoever. -/
theorem c6_no_buyer_cancel_impossible (s : GState) (c : CallCtx) (h : s.buyer = none) :
    (cancel_deal s c).succeeds = false := by
  unfold cancel_deal
  repeat' split
  all_goals simp_all [RawRes.succeeds]

/-- Seller 10's best attempt at cancelling the buyerless deal with a
full-shaped bundle (size 2, pay custodian → account 20). -/
def c6wCancel : CallCtx :=
  { sender := 10, groupSize := 2
    gtxn0 := { typeEnum := payType, sender := custodian, receiver := 20, amount := 0 }
    timestamp := 200, appAddr := custodian }

/-- Witness for C6 (amended) at the concrete buyerless state `c6S`:
even a size-2 bundle with a custodian-funded payment cannot cancel. -/
theorem c6_no_buyer_cancel_impossible_witness :
    (cancel_deal c6S c6wCancel).succeeds = false :=
  c6_no_buyer_cancel_impossible c6S c6wCancel rfl

/-- Deployed-contract state for C7: offer recorded (buyer 20,
status still 0 — the contract's only pre-terminal status), seller 10,
deadline 500. -/
def c7S : GState :=
  { seller := some 10, buyer := some 20, price := some 1000,
    prop_hash := some 7, created := some 100, deadline := some 500, status := some 0 }

/-- A stranger (account 99) calls `cancel_deal` exactly at the
deadline instant (time 500) with a valid refund bundle paying
custodian → buyer 20. -/
def c7Cancel : CallCtx :=
  { sender := 99, groupSize := 2
    gtxn0 := { typeEnum := payType, sender := custodian, receiver := 20, amount := 0 }
    timestamp := 500, appAddr := custodian }

/-- Claim C7 counterexample: the claim says any caller is authorized
once now ≥ deadline, including at the boundary now == deadline; in
the deployed contract the deadline comparison is strict
(`LatestTimestamp > deadline`), so stranger 99's cancel with a valid
refund bundle at now = deadline = 500 is rejected. -/
theorem c7_boundary_cancel_rejected :
    c7Cancel.timestamp = getUint c7S.deadline ∧
    c7S.buyer ≠ some c7Cancel.sender ∧
    c7S.seller ≠ some c7Cancel.sender ∧
    (cancel_deal c7S c7Cancel).succeeds = false := by
  decide

/-- Claim C7 (amended): `cancel_deal` succeeds exactly when the caller
is the stored buyer or seller or the time is strictly past the
deadline (now > deadline), and status reads 0, and the bundle has
size 2 with a pay transaction from the custodian to the stored buyer.
In particular any caller strictly past the deadline with a valid
refund bundle succeeds, but the boundary instant now = deadline is
not authorized for a stranger. -/
theorem c7_cancel_success_characterization (s : GState) (c : CallCtx) :
    (cancel_deal s c).succeeds = true ↔
      ((getUint s.deadline < c.timestamp ∨ s.buyer = some c.sender ∨
        s.seller = some c.sender) ∧
       getUint s.status = 0 ∧ c.groupSize = 2 ∧
       c.gtxn0.typeEnum = payType ∧ c.gtxn0.sender = c.appAddr ∧
       s.buyer = some c.gtxn0.receiver) := by
  unfold cancel_deal
  repeat' split
  all_goals simp_all [RawRes.succeeds]

/-- State for C9's counterexample: an active listing in the v6
variant with no buyer recorded. -/
def c9S : GState :=
  { seller := some 10, price := some 1000, prop_hash := some 7,
    created := some 100, deadline := some 2592100, status := some 0 }

/-- Claim C9 counterexample: the claim says every operation evaluates
all guards before any mutation; the v6 variant's `make_offer` first
writes buyer := Sender and then rejects (`int 0; return`), so the
call from account 5 fails while the global state at the failure point
already differs from the pre-call state. -/
theorem c9_v6_offer_mutates_before_rejecting :
    (V6.make_offer c9S 5).succeeds = false ∧
    V6.make_offer c9S 5 = .fail { c9S with buyer := some 5 } ∧
    { c9S with buyer := some 5 } ≠ c9S := by
  decide

/-- Claim C9 (amended): in the deployed (v8) contract the three
mutating deal operations put every assert before every
app_global_put, so a rejected call fails with the global state still
untouched — the failure result always carries the pre-call state.
(The v6 variant's `make_offer` violates this ordering; there only the
ledger's atomic rollback of rejected calls keeps committed state
unchanged.) -/
theorem c9_v8_guards_precede_mutation (s t : GState) (c : CallCtx) :
    (make_offer s c = .fail t → t = s) ∧
    (confirm_transfer s c = .fail t → t = s) ∧
    (cancel_deal s c = .fail t → t = s) := by
  refine ⟨fun h => ?_, fun h => ?_, fun h => ?_⟩
  · unfold make_offer at h
    repeat' split at h
    all_goals simp_all
  · unfold confirm_transfer at h
    repeat' split at h
    all_goals simp_all
  · unfold cancel_deal at h
    repeat' split at h
    all_goals simp_all

/-- State for C9's witness: a completed deal (status 1) on which
`make_offer` fails at its first guard. -/
def c9wS : GState :=
  { seller := some 10, buyer := some 20, price := some 1000,
    prop_hash := some 7, created := some 100, deadline := some 2592100,
    status := some 1 }

/-- Caller 30's well-formed offer bundle against the completed deal. -/
def c9wOffer : CallCtx :=
  { sender := 30, groupSize := 2
    gtxn0 := { typeEnum := payType, sender := 30, receiver := custodian, amount := 1000 }
    timestamp := 200, appAddr := custodian }

/-- Witness for C9 (amended): on the completed deal `c9wS` the offer
is rejected and the failure state is exactly the pre-call state. -/
theorem c9_v8_guards_precede_mutation_witness :
    make_offer c9wS c9wOffer = RawRes.fail c9wS ∧ c9wS = c9wS :=
  ⟨by decide, (c9_v8_guards_precede_mutation c9wS c9wS c9wOffer).1 (by decide)⟩
